import Mathlib

/-!
Verification of the audio relay / resampling pipeline of
`examples/play_audio_stream.py` (AudioBuffer, the scipy resampler call
sites, VoiceAgentClient, and the two bounded asyncio queues).

Samples are signed 16-bit PCM values, embedded as `Int`.  Frames are
ordered lists of samples.
-/

/-- A PCM frame: an ordered sequence of int16 samples. -/
abbrev Frame := List Int

/-! ## AudioBuffer (play_audio_stream.py lines 34-56)

```python
class AudioBuffer:
    def __init__(self, blocksize=BLOCKSIZE):
        self.blocksize = blocksize
        self.buffer = np.array([], dtype=np.int16)

    def add_frame(self, frame_data):
        self.buffer = np.concatenate([self.buffer, frame_data])

    def get_chunk(self):
        if len(self.buffer) >= self.blocksize:
            chunk = self.buffer[: self.blocksize]
            self.buffer = self.buffer[self.blocksize :]
            return chunk
        return None

    def get_padded_chunk(self):
        if len(self.buffer) > 0:
            chunk = np.zeros(self.blocksize, dtype=np.int16)
            available = min(len(self.buffer), self.blocksize)
            chunk[:available] = self.buffer[:available]
            self.buffer = self.buffer[available:]
            return chunk
        return np.zeros(self.blocksize, dtype=np.int16)
```
-/

structure AudioBuffer where
  blocksize : Nat
  buffer : List Int
deriving DecidableEq, Repr

/-- `add_frame`: append the incoming samples at the tail of the buffer. -/
def AudioBuffer.add_frame (b : AudioBuffer) (frame_data : Frame) : AudioBuffer :=
  { b with buffer := b.buffer ++ frame_data }

/-- `get_chunk`: if at least `blocksize` samples are buffered, remove and
return exactly the first `blocksize` of them; otherwise return `none` and
leave the buffer unchanged. -/
def AudioBuffer.get_chunk (b : AudioBuffer) : Option Frame × AudioBuffer :=
  if b.blocksize ≤ b.buffer.length then
    (some (b.buffer.take b.blocksize), { b with buffer := b.buffer.drop b.blocksize })
  else
    (none, b)

/-- `get_padded_chunk`: `np.zeros(blocksize)` with the first
`available = min (length, blocksize)` buffered samples copied into its head
(`chunk[:available] = buffer[:available]`), removing those samples from the
buffer; on an empty buffer, an all-zero frame and no state change. -/
def AudioBuffer.get_padded_chunk (b : AudioBuffer) : Frame × AudioBuffer :=
  if 0 < b.buffer.length then
    let available := min b.buffer.length b.blocksize
    (b.buffer.take available ++ List.replicate (b.blocksize - available) 0,
      { b with buffer := b.buffer.drop available })
  else
    (List.replicate b.blocksize 0, b)

/-- Iterate `get_chunk` until it returns `none`, collecting the emitted
chunks and the final buffered remainder.  The `0 < bs` guard only rules out
the degenerate blocksize 0 (where the Python loop would spin forever on
empty chunks); for positive blocksize each step is exactly one
`get_chunk`. -/
def drainChunks (bs : Nat) (buf : List Int) : List Frame × List Int :=
  if _h : 0 < bs ∧ bs ≤ buf.length then
    let r := drainChunks bs (buf.drop bs)
    (buf.take bs :: r.1, r.2)
  else
    ([], buf)
termination_by buf.length
decreasing_by simp only [List.length_drop]; omega

/-! ## Resampler call sites (lines 96-99 and 157-160)

Both sites call `scipy.signal.resample(x, num)` which returns exactly `num`
output samples; the code computes `num = int(len(x) * r_out / r_in)`.
In Python, `len(x) * r_out` is exact integer arithmetic; the division by
`r_in` is float division and `int` truncates toward zero.  For every
sample count below 2^40 (far beyond any audio buffer) the float quotient
is within 1/6 of the exact rational, so truncation agrees with natural
floor division, which is what we embed. -/

/-- Output length of `scipy.signal.resample` as the code requests it:
`int(n * rOut / rIn)`, i.e. floor division. -/
def resampleLen (n rIn rOut : Nat) : Nat := n * rOut / rIn

/-- Outbound site (`send_audio`, lines 96-99): 48000 Hz → 16000 Hz. -/
def sendAudioOutLen (n : Nat) : Nat := resampleLen n 48000 16000

/-- Inbound site (`listen_for_responses`, lines 157-160): 24000 Hz → 48000 Hz. -/
def listenOutLen (n : Nat) : Nat := resampleLen n 24000 48000

/-- The output length the spec asserts: `round(N * r_out / r_in)`.
Stated from the spec's words, to be compared with `resampleLen`. -/
def specResampleLen (n rIn rOut : Nat) : Int := round ((n * rOut : ℚ) / rIn)

/-! ## int16 quantization of the resampled signal

Both resampler call sites end in `.astype(np.int16)`.  numpy converts a
float to int16 by a C-style cast: the value is truncated toward zero and
the resulting integer is reduced modulo 2^16 into two's-complement range
(the behaviour of numpy on all mainstream platforms; e.g.
`np.float32(40000).astype(np.int16)` is `-25536`).  We embed the integral
part of that cast. -/

/-- `astype(np.int16)` on an integral value: two's-complement wrap into
[-32768, 32767]. -/
def astypeInt16 (x : Int) : Int := (x + 32768) % 65536 - 32768

/-- The quantization step the code applies to the (truncated) resampled
values. -/
def quantizeResampled (xs : List Int) : List Int := xs.map astypeInt16

/-- Saturating quantization, stated from the spec's words ("clipping on
overflow"), to be compared with `astypeInt16`. -/
def clipInt16 (x : Int) : Int := max (-32768) (min 32767 x)

/-! ## Bounded asyncio queues (capacity 50)

`main` creates `asyncio.Queue(maxsize=50)` twice.  Per the asyncio
documentation, `await queue.put(item)` waits for a free slot when the
queue is full — it never raises `QueueFull` (only `put_nowait` does).
`PutOutcome.raisedQueueFull` is the outcome `put_nowait` would have; the
awaiting `put` the code uses never produces it. -/

inductive PutOutcome where
  | enqueued (q : List Frame)
  | blocked
  | raisedQueueFull
deriving DecidableEq, Repr

/-- `await queue.put(x)` on a bounded asyncio queue: enqueue at the tail
when below capacity, otherwise suspend the producer. -/
def queuePut (cap : Nat) (q : List Frame) (x : Frame) : PutOutcome :=
  if q.length < cap then .enqueued (q ++ [x]) else .blocked

/-- The pattern at lines 354-359 (and equally 162-167):

```python
try:
    await queue.put(audio_data)
except asyncio.QueueFull:
    logger.warning("Audio queue full, dropping frame")
    continue
```

Returns (queue afterwards, warning-logged?, producer-suspended?). -/
def monitorEnqueue (cap : Nat) (q : List Frame) (x : Frame) :
    List Frame × Bool × Bool :=
  match queuePut cap q x with
  | .enqueued q2 => (q2, false, false)
  | .blocked => (q, false, true)
  | .raisedQueueFull => (q, true, false)

/-! ## VoiceAgentClient (lines 59-182)

The websocket field of the Python object is either `None` or a channel
object; we track `none` versus `some isOpen`.  Inbound messages are
embedded after the `json.loads` step. -/

/-- A JSON value sitting in an object field: a string, or anything that is
not a string (so that `data.get("type") == "ready"` compares unequal). -/
inductive JVal where
  | str (s : String)
  | nonStr
deriving DecidableEq, Repr

/-- `dict.get` over the parsed object's entries (keys are unique after
`json.loads`). -/
def lookupField (fields : List (String × JVal)) (k : String) : Option JVal :=
  match fields with
  | [] => none
  | (k2, v) :: rest => if k2 = k then some v else lookupField rest k

/-- The first inbound message as `connect` sees it after
`await self.websocket.recv()` and `json.loads(message)`. -/
inductive FirstMsg where
  | obj (fields : List (String × JVal))
  | nonObjJson
  | invalidJson
  | recvFailed
deriving DecidableEq, Repr

/-- What happens at `websockets.connect(self.url)`. -/
inductive ConnectAttempt where
  | openFailed
  | opened (first : FirstMsg)
deriving DecidableEq, Repr

structure VoiceAgentClient where
  websocket : Option Bool
  connected : Bool
deriving DecidableEq, Repr

/-- `__init__`: `self.websocket = None`, `self.connected = False`. -/
def VoiceAgentClient.init : VoiceAgentClient := ⟨none, false⟩

/-- `connect` (lines 66-87): open the channel, read the first message,
succeed only on a JSON object whose `"type"` field is `"ready"`; every
exception (open failure, recv failure, `json.loads` failure, `.get` on a
non-object) is caught, logged and turned into `False`.  Returns the state
afterwards and the returned boolean. -/
def VoiceAgentClient.connect (st : VoiceAgentClient) (att : ConnectAttempt) :
    VoiceAgentClient × Bool :=
  match att with
  | .openFailed => (st, false)
  | .opened first =>
    let st1 := { st with websocket := some true }
    match first with
    | .obj fields =>
      if lookupField fields "type" = some (.str "ready") then
        ({ st1 with connected := true }, true)
      else
        (st1, false)
    | _ => (st1, false)

/-- Whether the underlying `self.websocket.send(...)` call raises. -/
inductive SendEvent where
  | sendOk
  | sendRaises
deriving DecidableEq, Repr

/-- `send_audio` (lines 89-115) on a frame of `n` samples: early return
when `not self.connected or not self.websocket`; otherwise resample
48 kHz → 16 kHz and send one message, with any exception logged and
swallowed.  Returns (state afterwards, number of samples in the payload
actually sent, exception-propagated?). -/
def VoiceAgentClient.send_audio (st : VoiceAgentClient) (ev : SendEvent)
    (n : Nat) : VoiceAgentClient × Option Nat × Bool :=
  if st.connected = false ∨ st.websocket = none then
    (st, none, false)
  else
    match ev with
    | .sendOk => (st, some (sendAudioOutLen n), false)
    | .sendRaises => (st, none, false)

/-- `disconnect` (lines 178-182): clear `connected`; close the channel if
one was ever assigned. -/
def VoiceAgentClient.disconnect (st : VoiceAgentClient) : VoiceAgentClient :=
  ⟨st.websocket.map (fun _ => false), false⟩

/-! ## listen_for_responses (lines 144-176)

The whole `async for` loop sits inside one `try`; `except` clauses around
the loop (not inside it) catch `ConnectionClosed` and any other exception,
log, set `connected = False` and return.  Inside the loop, only the
`output_queue.put` is wrapped in a (dead) `except asyncio.QueueFull`.
Messages are embedded after `json.loads` / `b64decode` /
`np.frombuffer`; the scipy resampler is the external parameter `rs`. -/

/-- An inbound message as the loop body classifies it. -/
inductive InMsg where
  | audio (samples : List Int)
  | text (s : String)
  | other
  | malformed
deriving DecidableEq, Repr

/-- The state the receive loop touches: the client's `connected` flag, the
bounded output queue, and what the `"text"` branch printed. -/
structure ListenState where
  connected : Bool
  queue : List Frame
  printed : List String
deriving DecidableEq, Repr

/-- How the receive loop ends. -/
inductive LoopEnd where
  | channelClosed
  | exceptionRaised
  | producerBlocked
deriving DecidableEq, Repr

/-- One iteration of the loop body on an already-received message. -/
def listenStep (rs : List Int → List Int) (cap : Nat) (st : ListenState)
    (m : InMsg) : Except LoopEnd ListenState :=
  match m with
  | .malformed => .error .exceptionRaised
  | .audio samples =>
    let resampled := rs samples
    match queuePut cap st.queue resampled with
    | .enqueued q2 => .ok { st with queue := q2 }
    | .blocked => .error .producerBlocked
    | .raisedQueueFull => .ok st
  | .text s => .ok { st with printed := st.printed ++ [s] }
  | .other => .ok st

/-- `listen_for_responses` over the sequence of messages the channel
delivers before closing.  Channel close ends the iteration and is caught
as `ConnectionClosed` (log, `connected = False`); an exception escaping
the loop body is caught by the outer `except Exception` (log,
`connected = False`); a producer suspended on a full queue leaves the
loop parked at that `await`. -/
def listen_for_responses (rs : List Int → List Int) (cap : Nat)
    (st : ListenState) : List InMsg → ListenState × LoopEnd
  | [] => ({ st with connected := false }, .channelClosed)
  | m :: rest =>
    match listenStep rs cap st m with
    | .ok st2 => listen_for_responses rs cap st2 rest
    | .error .producerBlocked => (st, .producerBlocked)
    | .error e => ({ st with connected := false }, e)

theorem drainChunks_spec (bs : Nat) (buf : List Int) (hbs : 0 < bs) :
    (drainChunks bs buf).1.length = buf.length / bs ∧
    (∀ c ∈ (drainChunks bs buf).1, c.length = bs) ∧
    (drainChunks bs buf).1.flatten ++ (drainChunks bs buf).2 = buf ∧
    (drainChunks bs buf).2.length = buf.length % bs := by
  induction buf using drainChunks.induct bs with
  | case1 buf h ih =>
    obtain ⟨hpos, hle⟩ := h
    rw [drainChunks]
    simp only [hpos, hle, and_self, dite_true]
    obtain ⟨h1, h2, h3, h4⟩ := ih
    refine ⟨?_, ?_, ?_, ?_⟩
    · simp only [List.length_cons, h1, List.length_drop]
      rw [Nat.div_eq_sub_div hpos hle]
    · intro c hc
      rw [List.mem_cons] at hc
      rcases hc with rfl | hc
      · simp [List.length_take, Nat.min_eq_left hle]
      · exact h2 c hc
    · simp only [List.flatten_cons, List.append_assoc, h3, List.take_append_drop]
    · rw [h4, List.length_drop, ← Nat.mod_eq_sub_mod hle]
  | case2 buf h =>
    rw [drainChunks]
    simp only [h, dite_false]
    have hlt : buf.length < bs := by omega
    refine ⟨?_, by simp, by simp, ?_⟩
    · simp only [List.length_nil, Nat.div_eq_of_lt hlt]
    · rw [Nat.mod_eq_of_lt hlt]

theorem foldl_add_frame (bs : Nat) (frames : List Frame) (init : List Int) :
    frames.foldl AudioBuffer.add_frame ⟨bs, init⟩ = ⟨bs, init ++ frames.flatten⟩ := by
  induction frames generalizing init with
  | nil => simp
  | cons f rest ih =>
    simp only [List.foldl_cons, AudioBuffer.add_frame, List.flatten_cons, ih,
      List.append_assoc]

/-- Claim C2: for every sequence of `add_frame` calls whose concatenated
sample count is L ≥ blocksize (blocksize positive), repeatedly calling
`get_chunk` yields exactly ⌊L/blocksize⌋ chunks, each of exactly blocksize
samples, delivering the added samples in their original order (FIFO);
afterwards `get_chunk` returns `none` and at most blocksize − 1 samples
remain buffered. -/
theorem C2_add_frame_get_chunk_fifo (bs : Nat) (frames : List Frame)
    (hbs : 0 < bs) (hL : bs ≤ frames.flatten.length) :
    (frames.foldl AudioBuffer.add_frame ⟨bs, []⟩).buffer = frames.flatten ∧
    (drainChunks bs frames.flatten).1.length = frames.flatten.length / bs ∧
    (∀ c ∈ (drainChunks bs frames.flatten).1, c.length = bs) ∧
    (drainChunks bs frames.flatten).1.flatten ++ (drainChunks bs frames.flatten).2 =
      frames.flatten ∧
    (AudioBuffer.get_chunk ⟨bs, (drainChunks bs frames.flatten).2⟩).1 = none ∧
    (drainChunks bs frames.flatten).2.length ≤ bs - 1 := by
  obtain ⟨h1, h2, h3, h4⟩ := drainChunks_spec bs frames.flatten hbs
  have hmod : frames.flatten.length % bs < bs := Nat.mod_lt _ hbs
  refine ⟨by rw [foldl_add_frame bs frames []]; rfl, h1, h2, h3, ?_, by omega⟩
  have hlt : ¬ bs ≤ (drainChunks bs frames.flatten).2.length := by omega
  simp [AudioBuffer.get_chunk, hlt]

/-- Witness for C2 at blocksize 2 and frames [1,2,3], [4,5]: five samples
give two full chunks and one leftover sample. -/
theorem C2_add_frame_get_chunk_fifo_witness :
    (([[1, 2, 3], [4, 5]] : List Frame).foldl AudioBuffer.add_frame ⟨2, []⟩).buffer =
      ([[1, 2, 3], [4, 5]] : List Frame).flatten ∧
    (drainChunks 2 ([[1, 2, 3], [4, 5]] : List Frame).flatten).1.length =
      ([[1, 2, 3], [4, 5]] : List Frame).flatten.length / 2 ∧
    (∀ c ∈ (drainChunks 2 ([[1, 2, 3], [4, 5]] : List Frame).flatten).1, c.length = 2) ∧
    (drainChunks 2 ([[1, 2, 3], [4, 5]] : List Frame).flatten).1.flatten ++
        (drainChunks 2 ([[1, 2, 3], [4, 5]] : List Frame).flatten).2 =
      ([[1, 2, 3], [4, 5]] : List Frame).flatten ∧
    (AudioBuffer.get_chunk
        ⟨2, (drainChunks 2 ([[1, 2, 3], [4, 5]] : List Frame).flatten).2⟩).1 = none ∧
    (drainChunks 2 ([[1, 2, 3], [4, 5]] : List Frame).flatten).2.length ≤ 2 - 1 :=
  C2_add_frame_get_chunk_fifo 2 [[1, 2, 3], [4, 5]] (by decide) (by decide)

/-- Claim C6 counterexample: on a buffer of 3 samples with blocksize 2,
`get_padded_chunk` leaves one sample buffered — the buffer is not empty
afterwards, contradicting "drains all available data: after the call the
buffer is empty" for every buffer state. -/
theorem C6_counterexample :
    (AudioBuffer.get_padded_chunk ⟨2, [1, 2, 3]⟩).2.buffer ≠ [] := by decide

/-- Claim C6 (amended): for every buffer state, `get_padded_chunk` returns
a frame of exactly blocksize samples, zero-padding any shortfall, and
removes min(buffered, blocksize) samples from the front; the buffer is
empty afterwards iff it held at most blocksize samples. -/
theorem C6_get_padded_chunk_amended (b : AudioBuffer) :
    b.get_padded_chunk.1.length = b.blocksize ∧
    b.get_padded_chunk.2.buffer = b.buffer.drop (min b.buffer.length b.blocksize) ∧
    (b.get_padded_chunk.2.buffer = [] ↔ b.buffer.length ≤ b.blocksize) := by
  unfold AudioBuffer.get_padded_chunk
  by_cases h : 0 < b.buffer.length
  · simp only [h, if_true]
    refine ⟨?_, by trivial, ?_⟩
    · simp only [List.length_append, List.length_take, List.length_replicate]
      omega
    · rw [List.drop_eq_nil_iff]
      omega
  · have hb : b.buffer = [] := List.eq_nil_of_length_eq_zero (by omega)
    simp [hb]

/-- Claim C7: on a buffer holding k < blocksize samples (including k = 0),
`get_padded_chunk` returns the k buffered samples in order followed by
blocksize − k zeros, and leaves the buffer empty. -/
theorem C7_get_padded_chunk_short (b : AudioBuffer)
    (h : b.buffer.length < b.blocksize) :
    b.get_padded_chunk.1 =
      b.buffer ++ List.replicate (b.blocksize - b.buffer.length) 0 ∧
    b.get_padded_chunk.2.buffer = [] := by
  unfold AudioBuffer.get_padded_chunk
  by_cases h0 : 0 < b.buffer.length
  · simp only [h0, if_true]
    have hmin : min b.buffer.length b.blocksize = b.buffer.length :=
      Nat.min_eq_left (le_of_lt h)
    rw [hmin]
    exact ⟨by rw [List.take_length], by simp⟩
  · have hb : b.buffer = [] := List.eq_nil_of_length_eq_zero (by omega)
    simp [hb]

/-- Witness for C7 at blocksize 3 and buffered [5]: the returned frame is
[5, 0, 0] and the buffer ends empty. -/
theorem C7_get_padded_chunk_short_witness :
    (AudioBuffer.get_padded_chunk ⟨3, [5]⟩).1 = [5, 0, 0] ∧
    (AudioBuffer.get_padded_chunk ⟨3, [5]⟩).2.buffer = [] :=
  C7_get_padded_chunk_short ⟨3, [5]⟩ (by decide)

/-- Claim C1 (code bug): enqueueing onto a full capacity-50 queue through
the code's `try: await queue.put(...) except asyncio.QueueFull` pattern
suspends the producer; the frame is not dropped, no warning is logged, and
the same holds at the receive-loop's enqueue site.  The drop-and-warn
branch the claim describes is the intent of the dead `except` clause, but
the awaiting `put` never raises `QueueFull`. -/
theorem C1_full_queue_blocks_producer :
    monitorEnqueue 50 (List.replicate 50 [0]) [1] =
      (List.replicate 50 [0], false, true) ∧
    listenStep (fun xs => xs) 50 ⟨true, List.replicate 50 [0], []⟩ (.audio [1]) =
      .error .producerBlocked :=
  ⟨rfl, rfl⟩

/-- Claim C3 counterexample: with the client connected and the channel
delivering a malformed message followed by a text message, the loop does
not continue — the text message is never printed, and the loop ends by the
outer exception handler, not by channel close. -/
theorem C3_counterexample :
    listen_for_responses (fun xs => xs) 50 ⟨true, [], []⟩
        [.malformed, .text "hi"] =
      (⟨false, [], []⟩, .exceptionRaised) := by
  decide

/-- Claim C3 (amended): a malformed inbound message escapes the loop body;
the outer `except` logs it, sets the client non-connected, and the loop
terminates with all subsequent messages discarded unprocessed.  A
well-formed message of unrecognized type is silently skipped and the loop
continues.  Channel close ends the loop with the client non-connected. -/
theorem C3_malformed_terminates (rs : List Int → List Int) (cap : Nat)
    (st : ListenState) (rest : List InMsg) :
    listen_for_responses rs cap st (.malformed :: rest) =
      ({ st with connected := false }, .exceptionRaised) ∧
    listen_for_responses rs cap st (.other :: rest) =
      listen_for_responses rs cap st rest ∧
    listen_for_responses rs cap st [] =
      ({ st with connected := false }, .channelClosed) :=
  ⟨rfl, rfl, rfl⟩

/-- Claim C4 counterexample: a first message that is a JSON object with
`"type": "ready"` plus an extra field — not exactly `{"type":"ready"}` —
still makes `connect` return success. -/
theorem C4_counterexample :
    (VoiceAgentClient.init.connect
        (.opened (.obj [("type", .str "ready"), ("extra", .str "x")]))).2 = true ∧
    [("type", JVal.str "ready"), ("extra", JVal.str "x")] ≠
      [("type", JVal.str "ready")] := by
  decide

/-- Claim C4 (amended): `connect` returns success iff the channel opens and
the first inbound message parses as a JSON object whose `"type"` field is
the string `"ready"` (additional fields permitted); any other first
message, unparseable message, or immediate channel error/close yields
failure, and the `connected` flag always equals the returned boolean. -/
theorem C4_connect_ready_iff (att : ConnectAttempt) :
    ((VoiceAgentClient.init.connect att).2 = true ↔
      ∃ fields, att = .opened (.obj fields) ∧
        lookupField fields "type" = some (.str "ready")) ∧
    (VoiceAgentClient.init.connect att).1.connected =
      (VoiceAgentClient.init.connect att).2 := by
  cases att with
  | openFailed => simp [VoiceAgentClient.connect, VoiceAgentClient.init]
  | opened first =>
    cases first with
    | obj fields =>
      by_cases h : lookupField fields "type" = some (JVal.str "ready")
      · refine ⟨⟨fun _ => ⟨fields, rfl, h⟩, fun _ => ?_⟩, ?_⟩ <;>
          simp [VoiceAgentClient.connect, VoiceAgentClient.init, h]
      · refine ⟨⟨fun hfalse => ?_, fun hex => ?_⟩, ?_⟩
        · exact absurd hfalse
            (by simp [VoiceAgentClient.connect, VoiceAgentClient.init, h])
        · obtain ⟨f2, heq, hl⟩ := hex
          cases heq
          exact absurd hl h
        · simp [VoiceAgentClient.connect, VoiceAgentClient.init, h]
    | nonObjJson => simp [VoiceAgentClient.connect, VoiceAgentClient.init]
    | invalidJson => simp [VoiceAgentClient.connect, VoiceAgentClient.init]
    | recvFailed => simp [VoiceAgentClient.connect, VoiceAgentClient.init]

/-- Claim C5 counterexample: 5 samples resampled 48000 → 16000 produce
`int(5 * 16000 / 48000) = 1` sample, not `round(5/3) = 2` as the claim's
rounding formula asserts. -/
theorem C5_counterexample :
    sendAudioOutLen 5 = 1 ∧ specResampleLen 5 48000 16000 = 2 ∧
    (sendAudioOutLen 5 : Int) ≠ specResampleLen 5 48000 16000 := by
  have h2 : specResampleLen 5 48000 16000 = 2 := by
    unfold specResampleLen
    rw [round_eq]
    norm_num
  refine ⟨rfl, h2, ?_⟩
  rw [h2]
  decide

/-- Claim C5 (amended): at the two fixed rate pairs, the requested output
length is the truncation ⌊N·r_out/r_in⌋, i.e. ⌊N/3⌋ samples for the
outbound 48000 → 16000 site and exactly 2·N samples for the inbound
24000 → 48000 site. -/
theorem C5_resample_len_amended (n : Nat) :
    sendAudioOutLen n = n / 3 ∧ listenOutLen n = 2 * n := by
  constructor
  · show n * 16000 / 48000 = n / 3
    have h : (48000 : Nat) = 16000 * 3 := by norm_num
    rw [h, Nat.mul_comm n 16000, Nat.mul_div_mul_left _ _ (by norm_num)]
  · show n * 48000 / 24000 = 2 * n
    have h : n * 48000 = 2 * n * 24000 := by ring
    rw [h, Nat.mul_div_cancel _ (by norm_num)]

/-- Claim C8 counterexample: the truncated resampled value 40000 lies above
the int16 range; `astype(np.int16)` stores −25536 (wrap modulo 2^16), not
the saturated bound 32767 the claim asserts. -/
theorem C8_counterexample :
    quantizeResampled [40000] = [-25536] ∧ clipInt16 40000 = 32767 ∧
    astypeInt16 40000 ≠ clipInt16 40000 := by
  decide

/-- Claim C8 (amended): the quantization step maps every (truncated)
resampled value into [-32768, 32767] by two's-complement wrap modulo 2^16
— the stored value is congruent to the input modulo 2^16, and values
already in range are stored unchanged; out-of-range values are wrapped,
not saturated. -/
theorem C8_astype_wraps (x : Int) :
    (-32768 ≤ astypeInt16 x ∧ astypeInt16 x < 32768) ∧
    (astypeInt16 x - x) % 65536 = 0 ∧
    (-32768 ≤ x ∧ x < 32768 → astypeInt16 x = x) := by
  unfold astypeInt16
  exact ⟨⟨by omega, by omega⟩, by omega, fun h => by omega⟩

/-- Witness for C8 (amended) at the in-range value 100: stored unchanged. -/
theorem C8_astype_wraps_witness : astypeInt16 100 = 100 :=
  (C8_astype_wraps 100).2.2 ⟨by decide, by decide⟩

/-- Claim C9: `send_audio` is a no-op when the client is not ready
(`connected` false or no websocket assigned); no exception ever propagates
from it; it never changes the client state (so a failed send tears nothing
down); and a failing send transmits nothing. -/
theorem C9_send_audio_swallow (st : VoiceAgentClient) (ev : SendEvent)
    (n : Nat) :
    (st.send_audio ev n).2.2 = false ∧
    (st.send_audio ev n).1 = st ∧
    (st.connected = false ∨ st.websocket = none →
      (st.send_audio ev n).2.1 = none) ∧
    (ev = .sendRaises → (st.send_audio ev n).2.1 = none) := by
  unfold VoiceAgentClient.send_audio
  by_cases h : st.connected = false ∨ st.websocket = none
  · simp [h]
  · cases ev <;> simp [h]

/-- Witness for C9 on a disconnected client whose send would raise:
nothing is sent. -/
theorem C9_send_audio_swallow_witness :
    (VoiceAgentClient.send_audio ⟨none, false⟩ .sendRaises 3).2.1 = none :=
  (C9_send_audio_swallow ⟨none, false⟩ .sendRaises 3).2.2.1 (Or.inl rfl)

/-- Claim C10: when the channel opens but the first message is not a ready
message (wrong type discriminator or unparseable JSON), `connect` returns
false with `connected` false, yet the websocket stays assigned and open;
a subsequent `disconnect` closes it. -/
theorem C10_failed_connect_keeps_channel (first : FirstMsg)
    (h : first = .invalidJson ∨
      ∃ fields, first = .obj fields ∧
        lookupField fields "type" ≠ some (.str "ready")) :
    (VoiceAgentClient.init.connect (.opened first)).2 = false ∧
    (VoiceAgentClient.init.connect (.opened first)).1 = ⟨some true, false⟩ ∧
    (VoiceAgentClient.init.connect (.opened first)).1.disconnect =
      ⟨some false, false⟩ := by
  rcases h with rfl | ⟨fields, rfl, hl⟩
  · exact ⟨rfl, rfl, rfl⟩
  · simp [VoiceAgentClient.connect, VoiceAgentClient.init,
      VoiceAgentClient.disconnect, hl]

/-- Witness for C10 at an unparseable first message. -/
theorem C10_failed_connect_keeps_channel_witness :
    (VoiceAgentClient.init.connect (.opened .invalidJson)).2 = false ∧
    (VoiceAgentClient.init.connect (.opened .invalidJson)).1 =
      ⟨some true, false⟩ ∧
    (VoiceAgentClient.init.connect (.opened .invalidJson)).1.disconnect =
      ⟨some false, false⟩ :=
  C10_failed_connect_keeps_channel .invalidJson (Or.inl rfl)
